import Mathlib

/-
Verification of the delta payload applier specification against the
update-engine sources.  The repository ships the applier's unit tests
(delta_performer_unittest.cc) and the post-install runner
(postinstall_runner_action.cc); the applier implementation itself
(delta_performer.cc) is not part of the excerpt, so the applier-side
operations below are modelled from the specification, with the behaviour
pinned by the repository's own tests taken as authoritative wherever the
two disagree.
-/

set_option autoImplicit false

namespace UpdateEngine

/-- Error taxonomy of the update engine (spec section 7).  Only the codes the
claims mention are modelled, plus `kError`, the generic failure code that a
`ScopedActionCompleter` reports when no specific code was set. -/
inductive ErrorCode where
  | kSuccess
  | kError
  | kDownloadInvalidMetadataMagicString
  | kDownloadInvalidMetadataSize
  | kDownloadMetadataSignatureMissingError
  | kDownloadMetadataSignatureMismatch
  | kUnsupportedMinorPayloadVersion
  | kPayloadMismatchedType
  | kPostinstallBootedFromFirmwareB
  | kPostinstallFirmwareRONotUpdatable
  | kPostinstallPowerwashError
  deriving DecidableEq, Repr

open ErrorCode

/-! ## Payload header and metadata size (claim C2)

Modelled from the spec (section 4.1 steps 2-5) and the repository's
metadata-size tests `DoMetadataSizeTest` (delta_performer_unittest.cc,
lines 177-203) together with `MissingMandatoryMetadataSizeTest`
(line 554), which pin the mandatory regime: under mandatory hash checks
the test expects failure whenever `expected_metadata_size` differs from
`actual_metadata_size`, with no exemption for an expected size of zero. -/

/-- Size of the payload header in bytes: magic (4) + major version (8) +
manifest size (8), plus the 4-byte metadata-signature size for major >= 2. -/
def headerSize (majorVersion : Nat) : Nat :=
  if majorVersion ≥ 2 then 24 else 20

/-- Metadata size computed from the payload header: header bytes plus the
manifest size, plus the metadata-signature size for major >= 2
(spec section 4.1 step 4). -/
def computedMetadataSize (majorVersion manifestSize metadataSignatureSize : Nat) : Nat :=
  headerSize majorVersion + manifestSize +
    (if majorVersion ≥ 2 then metadataSignatureSize else 0)

/-- Modelled from the spec: delta_performer.cc (the `Write` header-parsing
path) is not in the excerpt.  Cross-check of the install plan's
`metadata_size` against the size computed from the payload header.  Under
mandatory hash checks any disagreement (including an expected size of zero,
as pinned by `MissingMandatoryMetadataSizeTest`) fails with
`kDownloadInvalidMetadataSize`; otherwise the computed value is adopted into
the plan.  Returns the updated plan `metadata_size` on success. -/
def checkMetadataSize (planMetadataSize computedSize : Nat)
    (hashChecksMandatory : Bool) : Except ErrorCode Nat :=
  if hashChecksMandatory then
    if planMetadataSize ≠ computedSize then
      .error kDownloadInvalidMetadataSize
    else
      .ok computedSize
  else
    .ok computedSize

/-! ## Metadata signature verification (claim C1)

Modelled from the spec (section 4.1 step 7): delta_performer.cc's
`ValidateMetadataSignature` is not in the excerpt.  The RSA-SHA256 primitive
is idealised: a signature is a value that verifies against a key and a
message exactly when it equals the signature the key produces over that
message.  The leniency of the non-mandatory regime for both the missing and
the mismatching signature is pinned by `NonMandatoryEmptyMetadataSignatureTest`
and `NonMandatoryInvalidMetadataSignatureTest`. -/

/-- Modelled from the spec: idealisation of the external RSA-SHA256 signing
primitive over the metadata region.  The signature a key produces over a
message is represented by the pair of the two; verification is equality with
this value. -/
def rsaSha256MetadataSignature (key : Nat) (metadataBytes : List Nat) :
    Nat × List Nat :=
  (key, metadataBytes)

/-- Outcome of the metadata-parsing stage, mirroring
`DeltaPerformer::MetadataParseResult`. -/
inductive MetadataParseResult where
  | kMetadataParseSuccess
  | kMetadataParseError
  | kMetadataParseInsufficientData
  deriving DecidableEq, Repr

/-- Modelled from the spec: the metadata-signature check of
`ParsePayloadMetadata`.  An absent (empty) install-plan signature fails with
`kDownloadMetadataSignatureMissingError` only under mandatory hash checks; a
present signature that does not verify fails with
`kDownloadMetadataSignatureMismatch` only under mandatory hash checks; a
verifying signature succeeds. -/
def validateMetadataSignature (hashChecksMandatory : Bool)
    (metadataSignature : Option (Nat × List Nat))
    (key : Nat) (metadataBytes : List Nat) : ErrorCode :=
  match metadataSignature with
  | none =>
      if hashChecksMandatory then kDownloadMetadataSignatureMissingError
      else kSuccess
  | some sig =>
      if sig = rsaSha256MetadataSignature key metadataBytes then kSuccess
      else if hashChecksMandatory then kDownloadMetadataSignatureMismatch
      else kSuccess

/-- Modelled from the spec: the metadata-parse step built on the signature
check; a non-success code makes metadata parsing fail. -/
def parseMetadataSignatureStep (hashChecksMandatory : Bool)
    (metadataSignature : Option (Nat × List Nat))
    (key : Nat) (metadataBytes : List Nat) : MetadataParseResult × ErrorCode :=
  let code := validateMetadataSignature hashChecksMandatory metadataSignature
    key metadataBytes
  if code = kSuccess then (.kMetadataParseSuccess, kSuccess)
  else (.kMetadataParseError, code)

/-! ## Public key resolution (claim C3)

Modelled from the spec (section 4.1, public key resolution) and the test
`UsePublicKeyFromResponse`: `DeltaPerformer::GetPublicKeyFromResponse` is not
in the excerpt. -/

/-- Characters of the base64 alphabet: `A`-`Z`, `a`-`z`, `0`-`9`, `+`, `/`. -/
def isBase64Char (c : Char) : Bool :=
  (decide (65 ≤ c.toNat) && decide (c.toNat ≤ 90)) ||
  (decide (97 ≤ c.toNat) && decide (c.toNat ≤ 122)) ||
  (decide (48 ≤ c.toNat) && decide (c.toNat ≤ 57)) ||
  c = '+' || c = '/'

/-- Modelled from the spec: validity of a base64 blob as accepted by the
external base64 decoder used for `public_key_rsa`.  A valid blob is nonempty,
has length a multiple of four, carries at most two trailing `=` padding
characters, and otherwise consists of alphabet characters. -/
def isValidBase64 (s : List Char) : Bool :=
  let pad := (s.reverse.takeWhile (fun c => c = '=')).length
  decide (s.length % 4 = 0) && decide (0 < s.length) && decide (pad ≤ 2) &&
    (s.reverse.drop pad).all isBase64Char

/-- Modelled from the spec: `DeltaPerformer::GetPublicKeyFromResponse`.  The
in-band key from the response is used only when the build is not official,
no public key file exists at the on-device path, and the supplied blob is a
nonempty valid base64 string. -/
def GetPublicKeyFromResponse (isOfficialBuild publicKeyFileExists : Bool)
    (publicKeyRsa : List Char) : Bool :=
  if isOfficialBuild || publicKeyFileExists || publicKeyRsa.isEmpty then false
  else isValidBase64 publicKeyRsa

/-- Key blob used by `UsePublicKeyFromResponse`, the base64 encoding of
"Test\n". -/
def testKeyBlob : List Char := "VGVzdAo=".toList

/-- Invalid key blob used by `UsePublicKeyFromResponse`. -/
def invalidKeyBlob : List Char := "not-valid-base64".toList

/-! ## Manifest validation (claim C4)

Modelled from the spec (section 4.2): `DeltaPerformer::ValidateManifest` is
not in the excerpt; the expected outcomes are pinned by the seven
`ValidateManifest*` tests. -/

/-- Minor version denoting a full payload. -/
def kFullPayloadMinorVersion : Nat := 0

/-- The single supported delta minor version of this engine
(`DeltaPerformer::kSupportedMinorPayloadVersion`, the source-operations
dialect). -/
def kSupportedMinorPayloadVersion : Nat := 2

/-- Manifest fields relevant to validation: the optional minor version
(`none` when unset; protobuf reads an unset field as 0) and presence bits of
the four partition-info fields. -/
structure DeltaArchiveManifest where
  minor_version : Option Nat
  old_kernel_info : Bool
  old_rootfs_info : Bool
  new_kernel_info : Bool
  new_rootfs_info : Bool
  deriving DecidableEq, Repr

/-- Modelled from the spec: `DeltaPerformer::ValidateManifest`.  A full
payload must carry no old partition info and a minor version that is unset
or the full-payload sentinel; a delta payload must carry the supported minor
version and both new partition infos. -/
def ValidateManifest (is_full_update : Bool) (m : DeltaArchiveManifest) :
    ErrorCode :=
  if is_full_update then
    if m.old_kernel_info || m.old_rootfs_info then kPayloadMismatchedType
    else if m.minor_version.getD kFullPayloadMinorVersion ≠
        kFullPayloadMinorVersion then kUnsupportedMinorPayloadVersion
    else kSuccess
  else
    if m.minor_version.getD kFullPayloadMinorVersion ≠
        kSupportedMinorPayloadVersion then kUnsupportedMinorPayloadVersion
    else if !(m.new_kernel_info && m.new_rootfs_info) then
      kPayloadMismatchedType
    else kSuccess

/-! ## Bsdiff position strings (claim C6)

Modelled from the spec (section 4.3, extent serialization for bsdiff):
`DeltaPerformer::ExtentsToBsdiffPositionsString` is not in the excerpt; the
concrete output is pinned by `ExtentsToByteStringTest`. -/

/-- Fixed block size of the applier (spec section 3). -/
def blockSize : Nat := 4096

/-- Modelled from the spec: the entry list of a bsdiff position string.  For
every extent except the last the entry is
`(start_block * block_size, num_blocks * block_size)`; the last entry's
length is clamped to `file_length` minus the bytes emitted so far when the
remainder is smaller than the nominal byte length. -/
def bsdiffEntries (blockSizeBytes fileLength : Nat) :
    Nat → List (Nat × Nat) → List (Nat × Nat)
  | _, [] => []
  | emitted, [(startBlock, numBlocks)] =>
      [(startBlock * blockSizeBytes,
        min (numBlocks * blockSizeBytes) (fileLength - emitted))]
  | emitted, (startBlock, numBlocks) :: e :: rest =>
      (startBlock * blockSizeBytes, numBlocks * blockSizeBytes) ::
        bsdiffEntries blockSizeBytes fileLength
          (emitted + numBlocks * blockSizeBytes) (e :: rest)

/-- Separator between the byte offset and the byte length of an entry. -/
def colonSep : String := ":"

/-- Separator between entries. -/
def commaSep : String := ","

/-- Rendering of one position entry as `offset:length`. -/
def bsdiffEntryString (e : Nat × Nat) : String :=
  Nat.repr e.1 ++ colonSep ++ Nat.repr e.2

/-- Modelled from the spec: `DeltaPerformer::ExtentsToBsdiffPositionsString`,
the comma-separated rendering of the position entries. -/
def ExtentsToBsdiffPositionsString (extents : List (Nat × Nat))
    (blockSizeBytes fileLength : Nat) : String :=
  String.intercalate commaSep
    ((bsdiffEntries blockSizeBytes fileLength 0 extents).map bsdiffEntryString)

/-! ## Block device model and install operations (claims C7, C8)

Modelled from the spec (section 4.3): the operation executor of
delta_performer.cc is not in the excerpt.  The target device is a
byte-addressed memory `Nat → Nat`; an operation's output stream is written
sequentially into its destination extents. -/

/-- Writing a byte list at an offset of a byte-addressed memory. -/
def writeBytes (mem : Nat → Nat) (offset : Nat) (data : List Nat) :
    Nat → Nat :=
  fun a =>
    if offset ≤ a ∧ a < offset + data.length then data.getD (a - offset) 0
    else mem a

/-- Modelled from the spec: sequential write of a data stream into an ordered
extent list; each extent `(start_block, num_blocks)` receives the next
`num_blocks * blockSize` bytes of the stream. -/
def writeExtents (mem : Nat → Nat) :
    List (Nat × Nat) → List Nat → Nat → Nat
  | [], _ => mem
  | (startBlock, numBlocks) :: rest, data =>
      writeExtents
        (writeBytes mem (startBlock * blockSize)
          (data.take (numBlocks * blockSize)))
        rest (data.drop (numBlocks * blockSize))

/-- Total byte size of an extent list. -/
def extentsByteSum (extents : List (Nat × Nat)) : Nat :=
  (extents.map (fun e => e.2 * blockSize)).sum

/-- Bytes of the xz fixture of `ReplaceXzOperationTest`: `echo -n a | xz -9
--check=none`. -/
def kXzCompressedData : List Nat :=
  [0xfd, 0x37, 0x7a, 0x58, 0x5a, 0x00, 0x00, 0x00, 0xff, 0x12, 0xd9, 0x41,
   0x02, 0x00, 0x21, 0x01, 0x1c, 0x00, 0x00, 0x00, 0x10, 0xcf, 0x58, 0xcc,
   0x01, 0x00, 0x00, 0x61, 0x00, 0x00, 0x00, 0x00, 0x00, 0x01, 0x11, 0x01,
   0xad, 0xa6, 0x58, 0x04, 0x06, 0x72, 0x9e, 0x7a, 0x01, 0x00, 0x00, 0x00,
   0x00, 0x00, 0x59, 0x5a]

/-- Modelled from the spec: the external xz decoder (liblzma), which is not
part of this repository; only the fixture behaviour is needed.  The test
fixture's 52-byte stream decompresses to the single byte `a` (0x61); other
inputs are not modelled. -/
def xzDecompress (data : List Nat) : Option (List Nat) :=
  if data = kXzCompressedData then some [0x61] else none

/-- Modelled from the spec: the REPLACE_XZ operation.  The payload data is
decompressed with xz, the output is padded with zero bytes up to the byte sum
of the destination extents, and the padded stream is written to the
destination extents. -/
def performReplaceXz (mem : Nat → Nat) (dstExtents : List (Nat × Nat))
    (data : List Nat) : Option (Nat → Nat) :=
  match xzDecompress data with
  | none => none
  | some out =>
      if out.length ≤ extentsByteSum dstExtents then
        some (writeExtents mem dstExtents
          (out ++ List.replicate (extentsByteSum dstExtents - out.length) 0))
      else none

/-- Result of a REPLACE_XZ application with the unchanged memory as the
fallback on failure. -/
def applyReplaceXz (mem : Nat → Nat) (dstExtents : List (Nat × Nat))
    (data : List Nat) : Nat → Nat :=
  (performReplaceXz mem dstExtents data).getD mem

/-- Byte addresses covered by an extent list. -/
def inExtents (extents : List (Nat × Nat)) (a : Nat) : Bool :=
  extents.any fun e =>
    decide (e.1 * blockSize ≤ a) && decide (a < (e.1 + e.2) * blockSize)

/-- Modelled from the spec: the ZERO operation writes zero bytes to every
block of its destination extents and touches nothing else. -/
def performZero (mem : Nat → Nat) (dstExtents : List (Nat × Nat)) :
    Nat → Nat :=
  fun a => if inExtents dstExtents a then 0 else mem a

/-! ## Write call trace and progress reporting (claim C9)

Modelled from the spec (sections 4.1 and 4.5) with the behaviour pinned by
`WriteUpdatesPayloadState` and `BadDeltaMagicTest` (delta_performer_unittest.cc
lines 532-552): a 4-byte first write of a wrong magic still returns true
(buffering), further bytes latch failure, and every call - successful or
failed - triggers exactly one `DownloadProgress` call whose argument is the
byte count of that call (the mocks expect `DownloadProgress(4)` and
`DownloadProgress(8)` for writes of 4 and 8 bytes). -/

/-- Magic bytes `CrAU` opening every payload. -/
def kDeltaMagic : List Nat := [0x43, 0x72, 0x41, 0x55]

/-- Magic acceptance as observed through the tests: with at most 4 bytes
buffered the performer is still waiting; once more bytes are present the
first four must be the magic. -/
def magicAccepted (buffered : List Nat) : Bool :=
  decide (buffered.length ≤ 4) || decide (buffered.take 4 = kDeltaMagic)

/-- Observable outcome of one `Write` call: the argument of the single
`DownloadProgress` notification it triggers, and its boolean return value. -/
structure WriteStep where
  reported : Nat
  ok : Bool
  deriving DecidableEq, Repr

/-- Modelled from the spec: the trace of successive `Write` calls given the
already-buffered bytes and the latched-failure flag.  Every call reports
`DownloadProgress` once with the byte count of the call, then succeeds only
if no failure is latched and the buffered prefix still parses. -/
def perfWriteSteps : List Nat → Bool → List (List Nat) → List WriteStep
  | _, _, [] => []
  | buffered, failed, chunk :: rest =>
      let newBuf := buffered ++ chunk
      let ok := !failed && magicAccepted newBuf
      { reported := chunk.length, ok := ok } :: perfWriteSteps newBuf (!ok) rest

/-- Trace of `Write` calls starting from a fresh performer. -/
def perfTrace (chunks : List (List Nat)) : List WriteStep :=
  perfWriteSteps [] false chunks

/-- Sequence of `DownloadProgress` arguments across successive `Write`
calls. -/
def perfReports (chunks : List (List Nat)) : List Nat :=
  (perfTrace chunks).map WriteStep.reported

/-- Report sequence the claim describes: the cumulative byte total after each
`Write` call. -/
def cumulativeTotals (chunks : List (List Nat)) : List Nat :=
  (chunks.scanl (fun t c => t + c.length) 0).tail

/-- First write of `BadDeltaMagicTest` and `WriteUpdatesPayloadState`:
"junk". -/
def junkChunk : List Nat := [0x6a, 0x75, 0x6e, 0x6b]

/-- Second write of `BadDeltaMagicTest` and `WriteUpdatesPayloadState`:
"morejunk". -/
def morejunkChunk : List Nat := [0x6d, 0x6f, 0x72, 0x65, 0x6a, 0x75, 0x6e, 0x6b]

/-! ## Postinstall runner (claims C5, C10)

Embedded from src/postinstall_runner_action.cc (`PerformAction` lines 44-106
and `CompletePostinstall` lines 108-157). -/

/-- Observable outcome of `PostinstallRunnerAction::CompletePostinstall`: the
terminal error code reported through the `ScopedActionCompleter` (whose
default code is the generic `kError`), whether `SetActiveBootSlot` was
invoked, whether the target slot ended up marked active, and whether the
powerwash marker file was deleted. -/
structure PostinstallOutcome where
  code : ErrorCode
  setActiveBootSlotCalled : Bool
  slotMarkedActive : Bool
  powerwashMarkerDeleted : Bool
  deriving DecidableEq, Repr

/-- Embedding of `CompletePostinstall` (postinstall_runner_action.cc lines
108-157): `success` starts true, a nonzero script return code clears it;
`SetActiveBootSlot` is attempted only while `success` holds and its failure
clears `success`; on failure the powerwash marker is deleted when it had been
created and the return codes 3 and 4 select their dedicated error codes. -/
def completePostinstall (returnCode : Int) (setActiveBootSlotOk : Bool)
    (powerwashMarkerCreated : Bool) : PostinstallOutcome :=
  let postinstOk : Bool := decide (returnCode = 0)
  let success : Bool := postinstOk && setActiveBootSlotOk
  if success then
    { code := kSuccess
      setActiveBootSlotCalled := postinstOk
      slotMarkedActive := success
      powerwashMarkerDeleted := false }
  else
    { code :=
        if returnCode = 3 then kPostinstallBootedFromFirmwareB
        else if returnCode = 4 then kPostinstallFirmwareRONotUpdatable
        else kError
      setActiveBootSlotCalled := postinstOk
      slotMarkedActive := false
      powerwashMarkerDeleted := powerwashMarkerCreated }

/-- Observable outcome of a whole `PostinstallRunnerAction` run through the
powerwash path. -/
structure PostinstallRunOutcome where
  code : ErrorCode
  scriptRan : Bool
  powerwashMarkerPresent : Bool
  deriving DecidableEq, Repr

/-- Embedding of the powerwash path of `PerformAction` (lines 71-78) followed
by `CompletePostinstall`: when `powerwash_required` is set the marker file is
created first; if creation fails the action completes immediately with
`kPostinstallPowerwashError` and the script never runs; otherwise the script
runs and `CompletePostinstall` decides the outcome, deleting the marker on
failure. -/
def postinstallRun (powerwashRequired createMarkerOk : Bool)
    (returnCode : Int) (setActiveBootSlotOk : Bool) : PostinstallRunOutcome :=
  if powerwashRequired && !createMarkerOk then
    { code := kPostinstallPowerwashError
      scriptRan := false
      powerwashMarkerPresent := false }
  else
    let created := powerwashRequired
    let c := completePostinstall returnCode setActiveBootSlotOk created
    { code := c.code
      scriptRan := true
      powerwashMarkerPresent := created && !c.powerwashMarkerDeleted }

/-! ## Theorems -/

/-- Claim C1: under mandatory hash checks an empty install-plan metadata
signature makes metadata parsing fail with
`kDownloadMetadataSignatureMissingError`, a wrong signature fails with
`kDownloadMetadataSignatureMismatch`, and the correct signature over the
metadata region verified with the configured key succeeds; under
non-mandatory hash checks all three cases succeed with `kSuccess`. -/
theorem metadata_signature_triad (key : Nat) (metadataBytes : List Nat)
    (sig : Nat × List Nat)
    (hwrong : sig ≠ rsaSha256MetadataSignature key metadataBytes) :
    parseMetadataSignatureStep true none key metadataBytes =
      (.kMetadataParseError, kDownloadMetadataSignatureMissingError) ∧
    parseMetadataSignatureStep true (some sig) key metadataBytes =
      (.kMetadataParseError, kDownloadMetadataSignatureMismatch) ∧
    parseMetadataSignatureStep true
        (some (rsaSha256MetadataSignature key metadataBytes)) key
        metadataBytes =
      (.kMetadataParseSuccess, kSuccess) ∧
    ∀ s : Option (Nat × List Nat),
      parseMetadataSignatureStep false s key metadataBytes =
        (.kMetadataParseSuccess, kSuccess) := by
  refine ⟨rfl, ?_, ?_, ?_⟩
  · simp [parseMetadataSignatureStep, validateMetadataSignature, hwrong]
  · simp [parseMetadataSignatureStep, validateMetadataSignature]
  · intro s
    rcases s with _ | v
    · rfl
    · by_cases h : v = rsaSha256MetadataSignature key metadataBytes <;>
        simp [parseMetadataSignatureStep, validateMetadataSignature, h]

/-- Witness for C1 at the concrete key 0, empty metadata and the wrong
signature (1, []). -/
theorem metadata_signature_triad_witness :
    parseMetadataSignatureStep true (some (1, ([] : List Nat))) 0 [] =
      (.kMetadataParseError, kDownloadMetadataSignatureMismatch) :=
  (metadata_signature_triad 0 [] (1, []) (by decide)).2.1

/-- Counterexample to claim C2 as stated: with an install-plan metadata size
of 0 and mandatory hash checks, a header computing to the metadata size
75456 (the `MissingMandatoryMetadataSizeTest` scenario) is rejected with
`kDownloadInvalidMetadataSize`, whereas the claim says a zero plan size is
always accepted. -/
theorem metadata_size_zero_mandatory_rejected :
    checkMetadataSize 0 (computedMetadataSize 1 75436 0) true =
      .error kDownloadInvalidMetadataSize ∧
    computedMetadataSize 1 75436 0 = 75456 := ⟨rfl, by decide⟩

/-- Claim C2 (amended): during header parsing the size cross-check fails with
`kDownloadInvalidMetadataSize` if and only if hash checks are mandatory and
the install plan's metadata size disagrees with the computed one (a plan
value of zero included); in every other case the header is accepted and the
plan's value becomes the computed one. -/
theorem metadata_size_enforcement (planSize computed : Nat)
    (mandatory : Bool) :
    (checkMetadataSize planSize computed mandatory =
        .error kDownloadInvalidMetadataSize ↔
      mandatory = true ∧ planSize ≠ computed) ∧
    (¬(mandatory = true ∧ planSize ≠ computed) →
      checkMetadataSize planSize computed mandatory = .ok computed) := by
  cases mandatory <;> by_cases h : planSize = computed <;>
    simp [checkMetadataSize, h]

/-- Witness for C2 (amended) at the agreeing sizes of
`ValidMandatoryMetadataSizeTest`. -/
theorem metadata_size_enforcement_witness :
    checkMetadataSize 85376 85376 true = .ok 85376 :=
  (metadata_size_enforcement 85376 85376 true).2 (by decide)

/-- Claim C3: the in-band public key is usable if and only if the build is
not official, no on-device key file exists and the blob is valid base64;
evaluated on the blobs of `UsePublicKeyFromResponse`, the valid blob is
accepted and the invalid and empty blobs are rejected. -/
theorem public_key_from_response_iff (official keyFileExists : Bool)
    (blob : List Char) :
    (GetPublicKeyFromResponse official keyFileExists blob = true ↔
      official = false ∧ keyFileExists = false ∧
        isValidBase64 blob = true) ∧
    GetPublicKeyFromResponse false false testKeyBlob = true ∧
    GetPublicKeyFromResponse false false invalidKeyBlob = false ∧
    GetPublicKeyFromResponse false false [] = false ∧
    (∀ s, GetPublicKeyFromResponse true false s = false) ∧
    (∀ s, GetPublicKeyFromResponse official true s = false) := by
  refine ⟨?_, by decide, by decide, by decide, ?_, ?_⟩
  · cases official with
    | true => simp [GetPublicKeyFromResponse]
    | false =>
      cases keyFileExists with
      | true => simp [GetPublicKeyFromResponse]
      | false =>
        cases blob with
        | nil => simp [GetPublicKeyFromResponse]; decide
        | cons c cs => simp [GetPublicKeyFromResponse]
  · intro s; simp [GetPublicKeyFromResponse]
  · intro s; simp [GetPublicKeyFromResponse]

/-- Claim C4: the manifest validator matrix.  A full payload with any old
partition info present yields `kPayloadMismatchedType`; a full payload
without old info and with minor version unset or equal to the full-payload
sentinel yields `kSuccess`; a delta payload with minor version unset or
outside the supported set yields `kUnsupportedMinorPayloadVersion`; a delta
payload with the supported minor version and all four partition infos yields
`kSuccess`. -/
theorem validate_manifest_matrix (m : DeltaArchiveManifest) :
    (m.old_kernel_info = true ∨ m.old_rootfs_info = true →
      ValidateManifest true m = kPayloadMismatchedType) ∧
    (m.old_kernel_info = false → m.old_rootfs_info = false →
      (m.minor_version = none ∨
        m.minor_version = some kFullPayloadMinorVersion) →
      ValidateManifest true m = kSuccess) ∧
    ((m.minor_version = none ∨
        (∃ v, m.minor_version = some v ∧ v ≠ kSupportedMinorPayloadVersion)) →
      ValidateManifest false m = kUnsupportedMinorPayloadVersion) ∧
    (m.minor_version = some kSupportedMinorPayloadVersion →
      m.old_kernel_info = true → m.old_rootfs_info = true →
      m.new_kernel_info = true → m.new_rootfs_info = true →
      ValidateManifest false m = kSuccess) := by
  refine ⟨?_, ?_, ?_, ?_⟩
  · rintro (h | h) <;> simp [ValidateManifest, h]
  · rintro h1 h2 (h3 | h3) <;>
      simp [ValidateManifest, h1, h2, h3, kFullPayloadMinorVersion]
  · rintro (h | ⟨v, hv, hne⟩)
    · simp [ValidateManifest, h, kFullPayloadMinorVersion,
        kSupportedMinorPayloadVersion]
    · have h2 : v ≠ 2 := by
        simpa [kSupportedMinorPayloadVersion] using hne
      simp [ValidateManifest, hv, h2, kFullPayloadMinorVersion,
        kSupportedMinorPayloadVersion]
  · rintro h h1 h2 h3 h4
    simp [ValidateManifest, h, h1, h2, h3, h4, kSupportedMinorPayloadVersion]

/-- Witness for C4 at four concrete manifests, one per matrix row. -/
theorem validate_manifest_matrix_witness :
    ValidateManifest true ⟨some 2, true, false, true, true⟩ =
      kPayloadMismatchedType ∧
    ValidateManifest true ⟨none, false, false, true, true⟩ = kSuccess ∧
    ValidateManifest false ⟨none, false, false, true, true⟩ =
      kUnsupportedMinorPayloadVersion ∧
    ValidateManifest false ⟨some 2, true, true, true, true⟩ = kSuccess :=
  ⟨(validate_manifest_matrix _).1 (Or.inl rfl),
   (validate_manifest_matrix _).2.1 rfl rfl (Or.inl rfl),
   (validate_manifest_matrix _).2.2.1 (Or.inl rfl),
   (validate_manifest_matrix _).2.2.2 rfl rfl rfl rfl rfl⟩

/-- Claim C5: `SetActiveBootSlot` is invoked exactly when the postinstall
script exited with code 0, and on any terminal error - nonzero script exit
or slot-activation failure - the action completes with a non-`kSuccess` code
without the target slot having been marked active. -/
theorem postinstall_slot_activation_guard (rc : Int) (activeOk created : Bool) :
    ((completePostinstall rc activeOk created).setActiveBootSlotCalled = true ↔
      rc = 0) ∧
    (rc ≠ 0 ∨ activeOk = false →
      (completePostinstall rc activeOk created).code ≠ kSuccess ∧
      (completePostinstall rc activeOk created).slotMarkedActive = false) := by
  constructor
  · by_cases h : rc = 0
    · simp [completePostinstall, h]
      split_ifs <;> simp
    · simp [completePostinstall, h]
  · intro hfail
    by_cases h : rc = 0
    · have ha : activeOk = false := by
        rcases hfail with h' | h'
        · exact absurd h h'
        · exact h'
      subst ha
      simp [completePostinstall, h]
    · simp only [completePostinstall]
      have hd : decide (rc = 0) = false := by simp [h]
      simp [hd]
      split_ifs <;> simp

/-- Witness for C5 at a script return code of 1. -/
theorem postinstall_slot_activation_guard_witness :
    (completePostinstall 1 true false).code ≠ kSuccess ∧
    (completePostinstall 1 true false).slotMarkedActive = false :=
  (postinstall_slot_activation_guard 1 true false).2 (Or.inl (by decide))

/-- Claim C10: when the powerwash marker was created because the install plan
required a powerwash, any postinstall failure (nonzero script exit or
slot-activation failure) deletes the marker before the action completes, so
the failed run leaves no pending factory-reset request; and when creating the
marker itself fails, the action completes immediately with
`kPostinstallPowerwashError` without running the script. -/
theorem powerwash_marker_cleanup (createOk activeOk : Bool) (rc : Int) :
    (createOk = true → rc ≠ 0 ∨ activeOk = false →
      (postinstallRun true createOk rc activeOk).powerwashMarkerPresent =
        false ∧
      (postinstallRun true createOk rc activeOk).code ≠ kSuccess) ∧
    (createOk = false →
      (postinstallRun true createOk rc activeOk).code =
        kPostinstallPowerwashError ∧
      (postinstallRun true createOk rc activeOk).scriptRan = false) := by
  constructor
  · intro hc hfail
    subst hc
    have hsucc : (decide (rc = 0) && activeOk) = false := by
      rcases hfail with h' | h' <;> simp [h']
    have h2 : (completePostinstall rc activeOk true).code ≠ kSuccess := by
      simp [completePostinstall, hsucc]
      split_ifs <;> simp
    have hm : (completePostinstall rc activeOk true).powerwashMarkerDeleted =
        true := by
      simp [completePostinstall, hsucc]
    simp [postinstallRun, hm, h2]
  · intro hc
    subst hc
    simp [postinstallRun]

/-- Witness for C10 at a created marker with script exit code 1, and at a
failed marker creation. -/
theorem powerwash_marker_cleanup_witness :
    ((postinstallRun true true 1 true).powerwashMarkerPresent = false ∧
      (postinstallRun true true 1 true).code ≠ kSuccess) ∧
    ((postinstallRun true false 1 true).code = kPostinstallPowerwashError ∧
      (postinstallRun true false 1 true).scriptRan = false) :=
  ⟨(powerwash_marker_cleanup true true 1).1 rfl (Or.inl (by decide)),
   (powerwash_marker_cleanup false true 1).2 rfl⟩

/-- Claim C8: on a 10-block target initialised to `a` (0x61), a ZERO
operation with destination extents [(4,2),(7,1)] zeroes exactly the bytes of
blocks 4, 5 and 7 and leaves every byte of blocks 0-3, 6, 8 and 9 equal to
`a`. -/
theorem zero_operation_blocks (b i : Nat) (hb : b < 10) (hi : i < blockSize) :
    performZero (fun _ => 0x61) [(4, 2), (7, 1)] (b * blockSize + i) =
      if b = 4 ∨ b = 5 ∨ b = 7 then 0 else 0x61 := by
  have hi' : i < 4096 := hi
  simp only [performZero, inExtents, List.any_cons, List.any_nil,
    Bool.or_false, blockSize]
  split_ifs with h1 h2 h3
  · rfl
  · simp only [Bool.or_eq_true, Bool.and_eq_true, decide_eq_true_eq] at h1
    omega
  · simp only [Bool.or_eq_true, Bool.and_eq_true, decide_eq_true_eq] at h1
    omega
  · rfl

/-- Witness for C8 at the first byte of block 4 and the last byte of
block 9. -/
theorem zero_operation_blocks_witness :
    performZero (fun _ => 0x61) [(4, 2), (7, 1)] (4 * blockSize + 0) =
      (if (4 : Nat) = 4 ∨ (4 : Nat) = 5 ∨ (4 : Nat) = 7 then 0 else 0x61) ∧
    performZero (fun _ => 0x61) [(4, 2), (7, 1)] (9 * blockSize + 4095) =
      (if (9 : Nat) = 4 ∨ (9 : Nat) = 5 ∨ (9 : Nat) = 7 then 0 else 0x61) :=
  ⟨zero_operation_blocks 4 0 (by decide) (by decide),
   zero_operation_blocks 9 4095 (by decide) (by decide)⟩

/-- Every `Write` call reports the byte count of that call, regardless of the
buffered prefix or a latched failure. -/
theorem perfWriteSteps_map_reported (buf : List Nat) (failed : Bool)
    (chunks : List (List Nat)) :
    (perfWriteSteps buf failed chunks).map WriteStep.reported =
      chunks.map List.length := by
  induction chunks generalizing buf failed with
  | nil => rfl
  | cons c rest ih => simp [perfWriteSteps, ih]

/-- Each `Write` call contributes exactly one step to the trace. -/
theorem perfWriteSteps_length (buf : List Nat) (failed : Bool)
    (chunks : List (List Nat)) :
    (perfWriteSteps buf failed chunks).length = chunks.length := by
  induction chunks generalizing buf failed with
  | nil => rfl
  | cons c rest ih => simp [perfWriteSteps, ih]

/-- Partial byte totals along a chunk sequence of nonempty chunks are
strictly increasing. -/
theorem scanl_totals_chain (t : Nat) (chunks : List (List Nat))
    (h : ∀ c ∈ chunks, c ≠ []) :
    List.Chain' (fun x y => x < y)
      (chunks.scanl (fun a c => a + c.length) t) := by
  induction chunks generalizing t with
  | nil => simp
  | cons c rest ih =>
    rw [List.scanl_cons, List.singleton_append, List.chain'_cons']
    refine ⟨?_, ih _ fun c' hc' => h c' (List.mem_cons_of_mem _ hc')⟩
    intro b hb
    have hc : c.length ≠ 0 := by
      have := h c (List.mem_cons_self _ _)
      simpa [List.length_eq_zero] using this
    cases rest with
    | nil =>
      simp [List.scanl] at hb
      omega
    | cons d ds =>
      rw [List.scanl_cons] at hb
      simp at hb
      omega

/-- Prefixing the cumulative totals with the initial total 0 recovers the
scanl of the chunk lengths. -/
theorem cumulativeTotals_cons_zero (chunks : List (List Nat)) :
    0 :: cumulativeTotals chunks =
      chunks.scanl (fun a c => a + c.length) 0 := by
  cases chunks <;> rfl

/-- Counterexample to claim C9 as stated: replaying `WriteUpdatesPayloadState`
(writes of the 4-byte "junk" then the 8-byte "morejunk"), the
`DownloadProgress` arguments are 4 and 8 - the per-call byte counts the
test's mocks expect - not the cumulative totals 4 and 12 the claim
describes; the second call still reports although it returns false; and for
writes of 8 then 4 bytes the reported sequence 8, 4 is not monotonically
increasing. -/
theorem progress_reports_not_cumulative :
    perfReports [junkChunk, morejunkChunk] = [4, 8] ∧
    cumulativeTotals [junkChunk, morejunkChunk] = [4, 12] ∧
    perfReports [junkChunk, morejunkChunk] ≠
      cumulativeTotals [junkChunk, morejunkChunk] ∧
    (perfTrace [junkChunk, morejunkChunk]).map WriteStep.ok =
      [true, false] ∧
    perfReports [morejunkChunk, junkChunk] = [8, 4] ∧
    ¬ (8 : Nat) < 4 := by decide

/-- Claim C9 (amended): every `Write` call, including one that returns false,
triggers exactly one `DownloadProgress` notification, whose argument is the
byte count of that call rather than the cumulative total; the cumulative
totals implied by these reports are strictly monotonically increasing across
calls whenever every chunk is nonempty. -/
theorem progress_reports_per_write (chunks : List (List Nat))
    (h : ∀ c ∈ chunks, c ≠ []) :
    perfReports chunks = chunks.map List.length ∧
    (perfTrace chunks).length = chunks.length ∧
    List.Chain' (fun x y => x < y) (0 :: cumulativeTotals chunks) := by
  refine ⟨perfWriteSteps_map_reported [] false chunks,
    perfWriteSteps_length [] false chunks, ?_⟩
  rw [cumulativeTotals_cons_zero]
  exact scanl_totals_chain 0 chunks h

/-- Witness for C9 (amended) at two concrete nonempty writes. -/
theorem progress_reports_per_write_witness :
    perfReports [[0x61], [0x62, 0x63]] =
      ([[0x61], [0x62, 0x63]] : List (List Nat)).map List.length ∧
    (perfTrace [[0x61], [0x62, 0x63]]).length =
      ([[0x61], [0x62, 0x63]] : List (List Nat)).length ∧
    List.Chain' (fun x y => x < y)
      (0 :: cumulativeTotals [[0x61], [0x62, 0x63]]) :=
  progress_reports_per_write [[0x61], [0x62, 0x63]] (by decide)

/-- Claim C6: every extent except the last contributes the entry
`start_block * block_size : num_blocks * block_size`, the last entry's length
is clamped to the remainder of `file_length` past the bytes emitted so far,
and the fixture extents [(1,1),(4,2),(0,1)] with block size 4096 and file
length 4*4096-13 render as "4096:4096,16384:8192,0:4083". -/
theorem bsdiff_positions_construction :
    (∀ (bs flen emitted : Nat) (front : List (Nat × Nat))
        (lastE : Nat × Nat),
      bsdiffEntries bs flen emitted (front ++ [lastE]) =
        front.map (fun e => (e.1 * bs, e.2 * bs)) ++
          [(lastE.1 * bs,
            min (lastE.2 * bs)
              (flen - (emitted + (front.map fun e => e.2 * bs).sum)))]) ∧
    ExtentsToBsdiffPositionsString [(1, 1), (4, 2), (0, 1)] 4096
        (4 * 4096 - 13) = "4096:4096,16384:8192,0:4083" := by
  constructor
  · intro bs flen emitted front lastE
    induction front generalizing emitted with
    | nil =>
      obtain ⟨sb, nb⟩ := lastE
      simp [bsdiffEntries]
    | cons a front ih =>
      obtain ⟨sa, na⟩ := a
      cases front with
      | nil =>
        obtain ⟨sb, nb⟩ := lastE
        simp [bsdiffEntries, Nat.add_assoc]
      | cons b front' =>
        simp only [List.cons_append, bsdiffEntries, List.append_eq]
        rw [← List.cons_append, ih]
        simp [List.map_cons, List.sum_cons, Nat.add_assoc]
  · decide

/-- Reading any position of an all-zero byte list yields zero. -/
theorem getD_replicate_zero (n k : Nat) :
    (List.replicate k (0 : Nat)).getD n 0 = 0 := by
  induction k generalizing n with
  | zero => rfl
  | succ k ih =>
    cases n with
    | zero => rfl
    | succ n =>
      rw [List.replicate_succ, List.getD_cons_succ]
      exact ih n

/-- Claim C7: a REPLACE_XZ whose data decompresses to the single byte `a`
(0x61) and targets the one-block extent (0,1) succeeds and writes `a`
followed by 4095 zero bytes - the decompressed output padded with zeros up to
the byte sum of the destination extents - leaving all other addresses
untouched. -/
theorem replace_xz_padding (mem : Nat → Nat) (a : Nat) :
    performReplaceXz mem [(0, 1)] kXzCompressedData =
      some (writeBytes mem 0 (0x61 :: List.replicate 4095 0)) ∧
    (a = 0 → applyReplaceXz mem [(0, 1)] kXzCompressedData a = 0x61) ∧
    (0 < a → a < blockSize →
      applyReplaceXz mem [(0, 1)] kXzCompressedData a = 0) ∧
    (blockSize ≤ a →
      applyReplaceXz mem [(0, 1)] kXzCompressedData a = mem a) := by
  have htake : (0x61 :: List.replicate 4095 (0 : Nat)).take 4096 =
      0x61 :: List.replicate 4095 0 :=
    List.take_of_length_le (by rw [List.length_cons, List.length_replicate])
  have hxz : xzDecompress kXzCompressedData = some [0x61] := by
    rw [xzDecompress, if_pos rfl]
  have hsum : extentsByteSum [(0, 1)] = 4096 := by
    simp [extentsByteSum, blockSize]
  have h1 : performReplaceXz mem [(0, 1)] kXzCompressedData =
      some (writeBytes mem 0 (0x61 :: List.replicate 4095 0)) := by
    unfold performReplaceXz
    rw [hxz]
    simp only [hsum, List.length_cons, List.length_nil]
    rw [if_pos (by omega)]
    rw [show (4096 - (0 + 1) : Nat) = 4095 from rfl]
    rw [List.singleton_append]
    simp only [writeExtents]
    rw [show (0 * blockSize : Nat) = 0 from rfl,
      show (1 * blockSize : Nat) = 4096 from rfl, htake]
  have hget : applyReplaceXz mem [(0, 1)] kXzCompressedData =
      writeBytes mem 0 (0x61 :: List.replicate 4095 0) := by
    rw [applyReplaceXz, h1, Option.getD_some]
  have hlen : (0x61 :: List.replicate 4095 (0 : Nat)).length = 4096 := by
    rw [List.length_cons, List.length_replicate]
  refine ⟨h1, ?_, ?_, ?_⟩
  · intro h
    subst h
    rw [hget]
    simp only [writeBytes, hlen]
    rw [if_pos ⟨Nat.le_refl 0, by omega⟩]
    rfl
  · intro ha0 ha4
    have ha4' : a < 4096 := ha4
    rw [hget]
    simp only [writeBytes, hlen]
    rw [if_pos ⟨Nat.zero_le a, by omega⟩]
    obtain ⟨n, rfl⟩ : ∃ n, a = n + 1 := ⟨a - 1, by omega⟩
    rw [Nat.sub_zero, List.getD_cons_succ]
    exact getD_replicate_zero n 4095
  · intro hge
    have hge' : 4096 ≤ a := hge
    rw [hget]
    simp only [writeBytes, hlen]
    have hnc : ¬(0 ≤ a ∧ a < 0 + 4096) := by omega
    rw [if_neg hnc]

/-- Witness for C7 at the memory constantly 0xaa and the addresses 0 and 1. -/
theorem replace_xz_padding_witness :
    applyReplaceXz (fun _ => 0xaa) [(0, 1)] kXzCompressedData 1 = 0 ∧
    applyReplaceXz (fun _ => 0xaa) [(0, 1)] kXzCompressedData 0 = 0x61 :=
  ⟨(replace_xz_padding (fun _ => 0xaa) 1).2.2.1 (by decide) (by decide),
   (replace_xz_padding (fun _ => 0xaa) 0).2.1 rfl⟩

end UpdateEngine
